import Mathlib

/-!
Shallow embedding of the Adler tour-booking backend (src/main.py).

The source is a FastAPI application over a relational store.  We embed:
- the process-wide configuration read from environment variables
  (DATABASE_URL, TG_BOT_TOKEN, GUIDES_CHAT_ID, ADMIN_TOKEN);
- the durable state (tours and bookings tables, plus the serial counter
  that the database uses for server-assigned booking identifiers);
- the handlers `list_tours`, `create_booking`, `require_admin`,
  `admin_list_tours` and the Telegram helpers `send_telegram_message`,
  `notify_guides`.

Effects become explicit values: a handler takes the configuration, the
database state, its request payload, a fault-injection parameter for the
persistence layer (an exception raised by a SQL statement inside the
`engine.begin()` transaction) and for the outbound Telegram HTTP call
(an httpx transport exception), and returns the new database state, the
HTTP-level result, and a trace of events (transaction begin / commit /
rollback, the SELECT, the INSERT, and each outbound Telegram post).
Timestamps flow through the code untouched (a datetime is only ever
interpolated into a message via `str`), so `date_time` is embedded as the
string it prints as.
-/

namespace Adler

/-- Python truthiness of an optional environment string: `None` and the
empty string are falsy.  The source guards with `if DATABASE_URL:`,
`if not BOT_TOKEN:`, `if not ADMIN_TOKEN or ...`, all of which use this. -/
def truthy : Option String → Bool
  | none => false
  | some s => !s.isEmpty

/-- Process-wide configuration, read once at startup from the environment
(src/main.py lines 13-26).  `database_url` truthy iff `engine` is built. -/
structure Config where
  database_url : Option String
  bot_token : Option String
  guides_chat_id : Option String
  admin_token : Option String
deriving Repr, DecidableEq

/-- A row of the `tours` table (columns used by src/main.py). -/
structure Tour where
  id : Nat
  title : String
  type : String
  description : Option String
  price_from : Option Rat
  duration_hours : Option Int
  is_active : Bool
deriving Repr, DecidableEq

/-- The public output model `TourOut` (src/main.py lines 110-116): it has
no `is_active` field. -/
structure TourOut where
  id : Nat
  title : String
  type : String
  description : Option String
  price_from : Option Rat
  duration_hours : Option Int
deriving Repr, DecidableEq

/-- Projection of a tours row onto the `TourOut` response model, i.e. the
column list `SELECT id, title, type, description, price_from,
duration_hours` used by both tour listings. -/
def tourToOut (t : Tour) : TourOut :=
  { id := t.id, title := t.title, type := t.type,
    description := t.description, price_from := t.price_from,
    duration_hours := t.duration_hours }

/-- Request body of `POST /api/bookings` (`BookingCreate`,
src/main.py lines 119-127). -/
structure BookingCreate where
  tour_id : Nat
  date_time : String
  people_count : Int
  client_name : String
  client_phone : String
  comment : Option String
  telegram_user_id : Option Int
  telegram_username : Option String
deriving Repr, DecidableEq

/-- A row of the `bookings` table as written by the INSERT in
`create_booking` (src/main.py lines 256-294). -/
structure Booking where
  id : Nat
  tour_id : Nat
  telegram_user_id : Option Int
  telegram_username : Option String
  client_name : String
  client_phone : String
  people_count : Int
  date_time : String
  comment : Option String
  status : String
deriving Repr, DecidableEq

/-- Durable state: the two tables plus the serial sequence backing the
server-assigned `bookings.id` (`RETURNING id`). -/
structure DB where
  tours : List Tour
  bookings : List Booking
  next_booking_id : Nat
deriving Repr, DecidableEq

/-- Result of a request handler as seen by the caller: `ok` is a 2xx JSON
body, `httpError` is a raised `HTTPException status detail`, and `exn` is
an exception that escapes the handler uncaught (FastAPI then produces a
generic 500, but the handler's own response is never returned). -/
inductive ApiResult (α : Type) where
  | ok (a : α)
  | httpError (status : Nat) (detail : String)
  | exn (msg : String)
deriving Repr, DecidableEq

/-- Whether a handler outcome is the success response. -/
def ApiResult.isOk {α : Type} : ApiResult α → Bool
  | .ok _ => true
  | _ => false

/-- Observable events of one `create_booking` execution, in order. -/
inductive Event where
  | txBegin
  | tourLookup (tour_id : Nat)
  | insertBooking (id : Nat)
  | commit
  | rollback
  | notifyAttempt (chat_id : Int) (text : String)
deriving Repr, DecidableEq

/-- Whether an event is an outbound notification post. -/
def Event.isNotify : Event → Bool
  | .notifyAttempt _ _ => true
  | _ => false

/-- Fault injection for the persistence layer: an exception (with message)
raised by the SELECT or by the INSERT inside the transaction. -/
inductive DbFault where
  | noFault
  | lookupFault (msg : String)
  | insertFault (msg : String)
deriving Repr, DecidableEq

/-- Whether the injected fault hits the tour SELECT. -/
def DbFault.hitsLookup : DbFault → Bool
  | .lookupFault _ => true
  | _ => false

/-- The characters Python's `str.isspace` accepts (CPython 3.11, Unicode
14.0.0): ASCII 0x09-0x0D, the separators 0x1C-0x1F, space, NEL 0x85, NBSP
0xA0, Ogham space 0x1680, the 0x2000-0x200A spaces, line and paragraph
separators 0x2028/0x2029, narrow NBSP 0x202F, math space 0x205F and
ideographic space 0x3000. -/
def pyIsSpace (c : Char) : Bool :=
  let n := c.toNat
  (9 ≤ n && n ≤ 13) || (28 ≤ n && n ≤ 32) || n == 0x85 || n == 0xA0 ||
  n == 0x1680 || (0x2000 ≤ n && n ≤ 0x200A) || n == 0x2028 || n == 0x2029 ||
  n == 0x202F || n == 0x205F || n == 0x3000

/-- Start code points of the aligned 10-character runs making up Unicode
category Nd, the decimal digits `int()` accepts (CPython 3.11, Unicode
14.0.0; each run holds the digits 0-9 of one script in order). -/
def ndStarts : List Nat :=
  [0x30, 0x660, 0x6F0, 0x7C0, 0x966, 0x9E6, 0xA66, 0xAE6, 0xB66, 0xBE6,
   0xC66, 0xCE6, 0xD66, 0xDE6, 0xE50, 0xED0, 0xF20, 0x1040, 0x1090, 0x17E0,
   0x1810, 0x1946, 0x19D0, 0x1A80, 0x1A90, 0x1B50, 0x1BB0, 0x1C40, 0x1C50,
   0xA620, 0xA8D0, 0xA900, 0xA9D0, 0xA9F0, 0xAA50, 0xABF0, 0xFF10, 0x104A0,
   0x10D30, 0x11066, 0x110F0, 0x11136, 0x111D0, 0x112F0, 0x11450, 0x114D0,
   0x11650, 0x116C0, 0x11730, 0x118E0, 0x11950, 0x11C50, 0x11D50, 0x11DA0,
   0x16A60, 0x16AC0, 0x16B50, 0x1D7CE, 0x1D7D8, 0x1D7E2, 0x1D7EC, 0x1D7F6,
   0x1E140, 0x1E2F0, 0x1E950, 0x1FBF0]

/-- Decimal value of a Unicode decimal digit, `none` on any other
character. -/
def pyDigitVal? (c : Char) : Option Nat :=
  (ndStarts.find? (fun r => r ≤ c.toNat && c.toNat < r + 10)).map
    (fun r => c.toNat - r)

/-- Parse a run of decimal digits in which single underscores may occur
between two digits (CPython's grouped-literal rule): `prevDigit` records
whether the previous character was a digit, so an underscore is accepted
only directly after a digit and the run may end only on a digit. -/
def pyDigitsAux : List Char → Bool → Nat → Option Nat
  | [], prevDigit, acc => if prevDigit then some acc else none
  | c :: cs, prevDigit, acc =>
    match pyDigitVal? c with
    | some d => pyDigitsAux cs true (acc * 10 + d)
    | none => if c == '_' && prevDigit then pyDigitsAux cs false acc else none

/-- Model of Python `int(s)` on a string (CPython 3.11, Unicode 14.0.0):
Unicode whitespace is stripped from both ends, then one optional ASCII
sign, then a non-empty run of Unicode decimal digits with single
underscores allowed between digits; every other input is `none`, a
`ValueError`.  (CPython normalizes interior whitespace to a space the
numeric parser then rejects; here interior whitespace simply fails the
digit parse — the same outcome.) -/
def pyInt? (s : String) : Option Int :=
  match ((s.data.dropWhile pyIsSpace).reverse.dropWhile pyIsSpace).reverse with
  | '-' :: ds => (pyDigitsAux ds false 0).map (fun n => -(n : Int))
  | '+' :: ds => (pyDigitsAux ds false 0).map (fun n => (n : Int))
  | ds => (pyDigitsAux ds false 0).map (fun n => (n : Int))

/-- `send_telegram_message` (src/main.py lines 168-187): no-op when
`BOT_TOKEN` is falsy, otherwise one POST to the Telegram API.  The
`client.post` call is NOT wrapped in try/except, so a transport fault
raises out of the function.  Returns the outcome plus the trace of posts
attempted. -/
def send_telegram_message (cfg : Config) (chat_id : Int) (text : String)
    (sendFault : Option String) : Except String Unit × List Event :=
  if !truthy cfg.bot_token then (.ok (), [])
  else
    match sendFault with
    | some e => (.error e, [.notifyAttempt chat_id text])
    | none => (.ok (), [.notifyAttempt chat_id text])

/-- `notify_guides` (src/main.py lines 190-202): no-op when `BOT_TOKEN` or
`GUIDES_CHAT_ID` is falsy; the `int(GUIDES_CHAT_ID)` conversion is wrapped
in try/except ValueError (modelled by `pyInt?` returning `none`),
and on failure the function silently returns.  The actual send is NOT
protected: its exception propagates. -/
def notify_guides (cfg : Config) (text : String)
    (sendFault : Option String) : Except String Unit × List Event :=
  if !truthy cfg.bot_token || !truthy cfg.guides_chat_id then (.ok (), [])
  else
    match pyInt? (cfg.guides_chat_id.getD "") with
    | none => (.ok (), [])
    | some guides_chat_id => send_telegram_message cfg guides_chat_id text sendFault

/-- The `SELECT id, title FROM tours WHERE id = :tour_id AND is_active =
TRUE` lookup with `.first()` (src/main.py lines 241-250); we return the
whole row since only `title` is read from it. -/
def findActiveTour (db : DB) (tour_id : Nat) : Option Tour :=
  db.tours.find? (fun t => t.id == tour_id && t.is_active)

/-- The `f" (@{payload.telegram_username})" if payload.telegram_username
else ""` fragment (src/main.py lines 305-307): Python truthiness, so a
missing or empty username yields the empty annotation. -/
def username_part : Option String → String
  | none => ""
  | some u => if u.isEmpty then "" else " (@" ++ u ++ ")"

/-- The `payload.comment or '-'` fragment (src/main.py line 316): Python
`or`, so a missing or empty comment becomes the placeholder. -/
def comment_or_dash : Option String → String
  | none => "-"
  | some c => if c.isEmpty then "-" else c

/-- The `guides_text` f-string (src/main.py lines 309-317). -/
def guides_text (tour_title : String) (booking_id : Nat) (p : BookingCreate) : String :=
  "🆕 Новая заявка #" ++ toString booking_id ++ "\n" ++
  "Тур: " ++ tour_title ++ "\n" ++
  "Дата/время: " ++ p.date_time ++ "\n" ++
  "Кол-во человек: " ++ toString p.people_count ++ "\n" ++
  "Клиент: " ++ p.client_name ++ username_part p.telegram_username ++ "\n" ++
  "Телефон: " ++ p.client_phone ++ "\n" ++
  "Комментарий: " ++ comment_or_dash p.comment

/-- The Booking row inserted by `create_booking`'s INSERT (src/main.py
lines 256-294): every column comes from the payload except `status`,
fixed to the literal 'new', and `id`, assigned by the database sequence. -/
def insertedBooking (db : DB) (p : BookingCreate) : Booking :=
  { id := db.next_booking_id, tour_id := p.tour_id,
    telegram_user_id := p.telegram_user_id,
    telegram_username := p.telegram_username,
    client_name := p.client_name, client_phone := p.client_phone,
    people_count := p.people_count, date_time := p.date_time,
    comment := p.comment, status := "new" }

/-- `create_booking` (src/main.py lines 230-321).  Fail fast with 500 when
no engine is configured; inside `engine.begin()` (commit on normal exit,
rollback when an exception leaves the block) run the active-tour SELECT —
no row raises `HTTPException 400 "Invalid tour_id"` — then the INSERT
returning the fresh id.  `except HTTPException: raise` re-raises the 400;
`except Exception as e` turns any other persistence failure into
`HTTPException 500 (str e)`.  After the transaction has committed, the
guides text is formatted and `notify_guides` is awaited: a transport
exception there escapes the handler uncaught (`exn`), otherwise the
handler returns `{ok: true, booking_id: id}`, modelled as `.ok id`. -/
def create_booking (cfg : Config) (db : DB) (p : BookingCreate)
    (fault : DbFault) (sendFault : Option String) :
    DB × ApiResult Nat × List Event :=
  if !truthy cfg.database_url then
    (db, .httpError 500 "DATABASE_URL is not configured", [])
  else
    match fault with
    | .lookupFault e => (db, .httpError 500 e, [.txBegin, .rollback])
    | .insertFault e =>
      match findActiveTour db p.tour_id with
      | none =>
        (db, .httpError 400 "Invalid tour_id", [.txBegin, .tourLookup p.tour_id, .rollback])
      | some _ =>
        (db, .httpError 500 e, [.txBegin, .tourLookup p.tour_id, .rollback])
    | .noFault =>
      match findActiveTour db p.tour_id with
      | none =>
        (db, .httpError 400 "Invalid tour_id", [.txBegin, .tourLookup p.tour_id, .rollback])
      | some tour_row =>
        let booking_id := db.next_booking_id
        let db' : DB :=
          { tours := db.tours,
            bookings := db.bookings ++ [insertedBooking db p],
            next_booking_id := booking_id + 1 }
        let committed : List Event :=
          [.txBegin, .tourLookup p.tour_id, .insertBooking booking_id, .commit]
        let sent := notify_guides cfg (guides_text tour_row.title booking_id p) sendFault
        match sent.1 with
        | .error e => (db', .exn e, committed ++ sent.2)
        | .ok _ => (db', .ok booking_id, committed ++ sent.2)

/-- The `ORDER BY id` ordering on tour rows. -/
def byId (a b : Tour) : Prop := a.id ≤ b.id

instance : DecidableRel byId := fun a b => Nat.decLe a.id b.id

instance : IsTotal Tour byId := ⟨fun a b => Nat.le_total a.id b.id⟩

instance : IsTrans Tour byId := ⟨fun _ _ _ hab hbc => Nat.le_trans hab hbc⟩

/-- Sort a tours table by ascending `id`, modelling `ORDER BY id`. -/
def sortById (ts : List Tour) : List Tour := List.insertionSort byId ts

/-- `list_tours`, handler of `GET /api/tours` (src/main.py lines 207-227):
500 when no engine, otherwise a single read-only SELECT of the active
tours ordered by id, each row projected onto `TourOut`.  The returned
state is the (unchanged) database, making explicit that the handler
performs no mutation. -/
def list_tours (cfg : Config) (db : DB) : DB × ApiResult (List TourOut) :=
  if !truthy cfg.database_url then
    (db, .httpError 500 "DATABASE_URL is not configured")
  else
    (db, .ok ((sortById (db.tours.filter (fun t => t.is_active))).map tourToOut))

/-- `require_admin` (src/main.py lines 61-67): reads the `X-Admin-Token`
header (`none` when absent) and raises `HTTPException 401 "Unauthorized"`
when `ADMIN_TOKEN` is falsy or the header differs from it. -/
def require_admin (cfg : Config) (header_token : Option String) :
    Except (Nat × String) Unit :=
  if !truthy cfg.admin_token || header_token != cfg.admin_token then
    .error (401, "Unauthorized")
  else .ok ()

/-- `admin_list_tours`, handler of `GET /admin/tours` (src/main.py lines
326-345): behind `require_admin`; lists ALL tours (active and inactive)
ordered by id, projected onto the same `TourOut` model as the public
listing (so `is_active` is not part of the response). -/
def admin_list_tours (cfg : Config) (db : DB) (header_token : Option String) :
    DB × ApiResult (List TourOut) :=
  match require_admin cfg header_token with
  | .error e => (db, .httpError e.1 e.2)
  | .ok _ =>
    if !truthy cfg.database_url then
      (db, .httpError 500 "DATABASE_URL is not configured")
    else
      (db, .ok ((sortById db.tours).map tourToOut))

/-- Left-to-right scan of a trace: `true` iff no notification post occurs
before the first `commit` event (vacuously `true` when there is no
notification at all). -/
def notifyOnlyAfterCommit : List Event → Bool
  | [] => true
  | e :: tr => e == Event.commit || (!e.isNotify && notifyOnlyAfterCommit tr)

/-! Concrete fixtures used by witnesses and counterexamples: one active
tour, one inactive tour, a fully configured process, and the concrete
booking request of the spec's scenario (§8). -/

/-- An active tour, as in the spec's concrete scenario. -/
def tourWalk : Tour :=
  { id := 1, title := "City Walk", type := "walk", description := none,
    price_from := none, duration_hours := none, is_active := true }

/-- An inactive tour. -/
def tourPier : Tour :=
  { id := 2, title := "Old Pier", type := "boat", description := none,
    price_from := none, duration_hours := none, is_active := false }

/-- A fully configured process (all environment variables set). -/
def cfgFull : Config :=
  { database_url := some "postgresql://neon/db", bot_token := some "bot-token",
    guides_chat_id := some "42", admin_token := some "s3cret" }

/-- Durable state holding the two fixture tours and no bookings. -/
def dbSample : DB :=
  { tours := [tourWalk, tourPier], bookings := [], next_booking_id := 1 }

/-- The spec's concrete booking request against the active tour. -/
def pSample : BookingCreate :=
  { tour_id := 1, date_time := "2025-06-01 10:00:00", people_count := 2,
    client_name := "Ana", client_phone := "+1555", comment := none,
    telegram_user_id := none, telegram_username := none }

/-- The fixture process with `DATABASE_URL` unset. -/
def cfgNoDb : Config := { cfgFull with database_url := none }

/-- The fixture process with `ADMIN_TOKEN` unset. -/
def cfgNoAdmin : Config := { cfgFull with admin_token := none }

/-- The fixture process with `TG_BOT_TOKEN` unset. -/
def cfgNoBot : Config := { cfgFull with bot_token := none }

/-- The fixture process whose `GUIDES_CHAT_ID` is not a valid integer
literal: Python's `int` raises `ValueError` on "12abc". -/
def cfgBadChat : Config := { cfgFull with guides_chat_id := some "12abc" }

/-! ## Theorems -/

/-- `pyInt?` agrees with CPython's `int()` on representative inputs:
whitespace-padded (ASCII and Unicode), underscore-grouped, Arabic-Indic
and fullwidth numerals parse; misplaced underscores, bare or doubled
signs, blanks between sign and digits, empty strings and trailing
garbage raise `ValueError`. -/
theorem pyInt?_matches_cpython_samples :
    pyInt? "42" = some 42 ∧ pyInt? " 42" = some 42 ∧
    pyInt? "\t-7 " = some (-7) ∧ pyInt? " 42　" = some 42 ∧
    pyInt? "4_2" = some 42 ∧ pyInt? "٤٢" = some 42 ∧
    pyInt? "４２" = some 42 ∧ pyInt? "007" = some 7 ∧
    pyInt? "_42" = none ∧ pyInt? "42_" = none ∧ pyInt? "4__2" = none ∧
    pyInt? "+" = none ∧ pyInt? "" = none ∧ pyInt? " " = none ∧
    pyInt? "+ 42" = none ∧ pyInt? "+-4" = none ∧ pyInt? "12abc" = none := by
  decide

/-- C5: when `DATABASE_URL` is absent no engine is built, and
`create_booking` fails fast with the 500 "DATABASE_URL is not configured"
server-error response (the spec's `ServiceUnavailable`) before opening any
transaction or doing any work: the state is returned unchanged and the
event trace is empty, for every payload and every fault scenario. -/
theorem C5_no_engine_fails_fast (cfg : Config) (db : DB) (p : BookingCreate)
    (fault : DbFault) (sendFault : Option String)
    (h : cfg.database_url = none) :
    create_booking cfg db p fault sendFault =
      (db, .httpError 500 "DATABASE_URL is not configured", []) := by
  simp [create_booking, truthy, h]

/-- Witness for C5 at the concrete unconfigured process. -/
theorem C5_witness :
    cfgNoDb.database_url = none ∧
    create_booking cfgNoDb dbSample pSample .noFault none =
      (dbSample, .httpError 500 "DATABASE_URL is not configured", []) :=
  ⟨rfl, C5_no_engine_fails_fast cfgNoDb dbSample pSample .noFault none rfl⟩

/-- C9: when `ADMIN_TOKEN` is not configured, `require_admin` rejects
every request with 401 Unauthorized whatever `X-Admin-Token` header is
supplied (including an absent one), and hence the admin tour listing
rejects every caller: the admin surface fails closed. -/
theorem C9_admin_fails_closed (cfg : Config) (db : DB) (tok : Option String)
    (h : cfg.admin_token = none) :
    require_admin cfg tok = .error (401, "Unauthorized") ∧
    admin_list_tours cfg db tok = (db, .httpError 401 "Unauthorized") := by
  have h1 : require_admin cfg tok = .error (401, "Unauthorized") := by
    simp [require_admin, truthy, h]
  exact ⟨h1, by simp [admin_list_tours, h1]⟩

/-- Witness for C9: with `ADMIN_TOKEN` unset, even the caller presenting
the would-be secret is rejected. -/
theorem C9_witness :
    cfgNoAdmin.admin_token = none ∧
    require_admin cfgNoAdmin (some "s3cret") = .error (401, "Unauthorized") ∧
    admin_list_tours cfgNoAdmin dbSample (some "s3cret") =
      (dbSample, .httpError 401 "Unauthorized") :=
  ⟨rfl, C9_admin_fails_closed cfgNoAdmin dbSample (some "s3cret") rfl⟩

/-- C2: when the submitted `tour_id` matches no active tour (nonexistent
or inactive), and the persistence layer does not itself fail on the
SELECT, `create_booking` creates no Booking row (state unchanged), rolls
the transaction back, and fails with `HTTPException 400 "Invalid
tour_id"` — the spec's `InvalidReference`, a client-error status. -/
theorem C2_invalid_tour_rejected (cfg : Config) (db : DB) (p : BookingCreate)
    (fault : DbFault) (sendFault : Option String)
    (hdb : truthy cfg.database_url = true)
    (hfault : fault.hitsLookup = false)
    (hnone : findActiveTour db p.tour_id = none) :
    create_booking cfg db p fault sendFault =
      (db, .httpError 400 "Invalid tour_id",
       [.txBegin, .tourLookup p.tour_id, .rollback]) := by
  cases fault with
  | noFault => simp [create_booking, hdb, hnone]
  | lookupFault e => simp [DbFault.hitsLookup] at hfault
  | insertFault e => simp [create_booking, hdb, hnone]

/-- Witness for C2 at the spec's concrete scenario: `tour_id = 999`
denotes no tour. -/
theorem C2_witness :
    truthy cfgFull.database_url = true ∧
    findActiveTour dbSample 999 = none ∧
    create_booking cfgFull dbSample { pSample with tour_id := 999 } .noFault none =
      (dbSample, .httpError 400 "Invalid tour_id",
       [.txBegin, .tourLookup 999, .rollback]) :=
  ⟨rfl, rfl,
   C2_invalid_tour_rejected cfgFull dbSample { pSample with tour_id := 999 }
     .noFault none rfl rfl rfl⟩

/-- C3: when a persistence failure strikes inside the transaction —
either the SELECT raises, or the INSERT raises after an active tour was
found — the transaction is rolled back so no Booking row becomes durable
(state unchanged), no commit and no notification occur, and the caller
receives `HTTPException 500 e` carrying the error detail `e` (the spec's
`PersistenceFailure`, a server-error status). -/
theorem C3_persistence_failure_rolls_back (cfg : Config) (db : DB)
    (p : BookingCreate) (sendFault : Option String) (fault : DbFault) (e : String)
    (hdb : truthy cfg.database_url = true)
    (hf : fault = .lookupFault e ∨
      (fault = .insertFault e ∧ (findActiveTour db p.tour_id).isSome = true)) :
    (create_booking cfg db p fault sendFault).1 = db ∧
    (create_booking cfg db p fault sendFault).2.1 = .httpError 500 e ∧
    Event.rollback ∈ (create_booking cfg db p fault sendFault).2.2 ∧
    Event.commit ∉ (create_booking cfg db p fault sendFault).2.2 ∧
    ∀ c t, Event.notifyAttempt c t ∉ (create_booking cfg db p fault sendFault).2.2 := by
  rcases hf with rfl | ⟨rfl, hsome⟩
  · simp [create_booking, hdb]
  · obtain ⟨t0, ht⟩ := Option.isSome_iff_exists.mp hsome
    simp [create_booking, hdb, ht]

/-- Witness for C3: an exception with message "connection reset" raised
by the INSERT, after the active tour was found. -/
theorem C3_witness :
    truthy cfgFull.database_url = true ∧
    ((cfgFull.database_url = cfgFull.database_url ∧
      (findActiveTour dbSample 1).isSome = true) ∧
     (create_booking cfgFull dbSample pSample (.insertFault "connection reset") none).1 =
       dbSample ∧
     (create_booking cfgFull dbSample pSample (.insertFault "connection reset") none).2.1 =
       .httpError 500 "connection reset") := by
  refine ⟨rfl, ⟨rfl, rfl⟩, ?_, ?_⟩
  · exact (C3_persistence_failure_rolls_back cfgFull dbSample pSample none
      (.insertFault "connection reset") "connection reset" rfl
      (Or.inr ⟨rfl, rfl⟩)).1
  · exact (C3_persistence_failure_rolls_back cfgFull dbSample pSample none
      (.insertFault "connection reset") "connection reset" rfl
      (Or.inr ⟨rfl, rfl⟩)).2.1

/-- C1: every booking submission that yields the success response
`{ok: true, booking_id: bid}` (modelled `.ok bid`) appends exactly one
Booking row: the new bookings table is the old one plus the single row
`insertedBooking db p`, whose `status` is the literal "new" and whose
identifier is the server-assigned `bid = db.next_booking_id`; the tours
table is untouched, and under the sequence invariant (every existing row's
id below the counter) the fresh identifier is strictly greater than every
previously assigned one. -/
theorem C1_success_creates_one_new_booking (cfg : Config) (db : DB)
    (p : BookingCreate) (fault : DbFault) (sendFault : Option String) (bid : Nat)
    (hok : (create_booking cfg db p fault sendFault).2.1 = .ok bid)
    (hfresh : ∀ b ∈ db.bookings, b.id < db.next_booking_id) :
    (create_booking cfg db p fault sendFault).1.bookings =
      db.bookings ++ [insertedBooking db p] ∧
    (create_booking cfg db p fault sendFault).1.tours = db.tours ∧
    (insertedBooking db p).status = "new" ∧
    (insertedBooking db p).id = bid ∧
    bid = db.next_booking_id ∧
    ∀ b ∈ db.bookings, b.id < bid := by
  cases hdb : truthy cfg.database_url with
  | false => simp [create_booking, hdb] at hok
  | true =>
    cases fault with
    | lookupFault e => simp [create_booking, hdb] at hok
    | insertFault e =>
      cases hfind : findActiveTour db p.tour_id with
      | none => simp [create_booking, hdb, hfind] at hok
      | some t => simp [create_booking, hdb, hfind] at hok
    | noFault =>
      cases hfind : findActiveTour db p.tour_id with
      | none => simp [create_booking, hdb, hfind] at hok
      | some t =>
        rcases hng : notify_guides cfg (guides_text t.title db.next_booking_id p)
            sendFault with ⟨res, ev⟩
        cases res with
        | error e => simp [create_booking, hdb, hfind, hng] at hok
        | ok u =>
          have hbid : bid = db.next_booking_id := by
            simp [create_booking, hdb, hfind, hng] at hok
            omega
          subst hbid
          refine ⟨?_, ?_, rfl, rfl, rfl, hfresh⟩
          · simp [create_booking, hdb, hfind, hng]
          · simp [create_booking, hdb, hfind, hng]

/-- Witness for C1 at the spec's concrete scenario: the fixture request
succeeds with `booking_id = 1` and one "new" row is created. -/
theorem C1_witness :
    (create_booking cfgFull dbSample pSample .noFault none).2.1 = .ok 1 ∧
    ((∀ b ∈ dbSample.bookings, b.id < dbSample.next_booking_id) ∧
     (create_booking cfgFull dbSample pSample .noFault none).1.bookings =
       dbSample.bookings ++ [insertedBooking dbSample pSample] ∧
     (insertedBooking dbSample pSample).status = "new" ∧
     (insertedBooking dbSample pSample).id = 1) := by
  refine ⟨rfl, by simp [dbSample], ?_, ?_, ?_⟩
  · exact (C1_success_creates_one_new_booking cfgFull dbSample pSample .noFault
      none 1 rfl (by simp [dbSample])).1
  · exact (C1_success_creates_one_new_booking cfgFull dbSample pSample .noFault
      none 1 rfl (by simp [dbSample])).2.2.1
  · exact (C1_success_creates_one_new_booking cfgFull dbSample pSample .noFault
      none 1 rfl (by simp [dbSample])).2.2.2.1

/-- C8: with storage configured, `GET /api/tours` returns `.ok l` where
`l` consists of exactly the projections of the active tours — membership
in `l` is equivalent to being the `TourOut` image of an active row — the
sequence is ordered by ascending tour identifier, and the handler leaves
the stored state unchanged (it runs a single read-only SELECT). -/
theorem C8_list_tours_active_ordered_readonly (cfg : Config) (db : DB)
    (hdb : truthy cfg.database_url = true) :
    (list_tours cfg db).1 = db ∧
    ∃ l, (list_tours cfg db).2 = .ok l ∧
      (∀ x, x ∈ l ↔ ∃ t, t ∈ db.tours ∧ t.is_active = true ∧ tourToOut t = x) ∧
      l.Pairwise (fun a b => a.id ≤ b.id) := by
  refine ⟨by simp [list_tours, hdb],
    (sortById (db.tours.filter (fun t => t.is_active))).map tourToOut,
    by simp [list_tours, hdb], ?_, ?_⟩
  · intro x
    simp only [List.mem_map, sortById, List.mem_insertionSort, List.mem_filter]
    tauto
  · rw [List.pairwise_map]
    exact (List.sorted_insertionSort byId
      (db.tours.filter (fun t => t.is_active))).imp (fun h => h)

/-- Witness for C8 at the fixture state: only the active "City Walk" tour
is listed, the state is unchanged. -/
theorem C8_witness :
    truthy cfgFull.database_url = true ∧
    (list_tours cfgFull dbSample).1 = dbSample ∧
    ∃ l, (list_tours cfgFull dbSample).2 = .ok l ∧
      (∀ x, x ∈ l ↔ ∃ t, t ∈ dbSample.tours ∧ t.is_active = true ∧ tourToOut t = x) ∧
      l.Pairwise (fun a b => a.id ≤ b.id) :=
  ⟨rfl, C8_list_tours_active_ordered_readonly cfgFull dbSample rfl⟩

/-- C10: for an authorized admin with storage configured, the admin tour
listing returns `.ok l` where `l` contains the `TourOut` projection of
every stored tour — active and inactive alike — and contains nothing
else; every row of the public listing is likewise a `TourOut` projection;
and the projection `tourToOut` is insensitive to the `is_active` flag
(`TourOut` carries no such field), so active and inactive tours are
indistinguishable in the response. -/
theorem C10_admin_lists_all_without_is_active (cfg : Config) (db : DB)
    (tok : Option String)
    (hadmin : truthy cfg.admin_token = true)
    (htok : tok = cfg.admin_token)
    (hdb : truthy cfg.database_url = true) :
    ∃ l, (admin_list_tours cfg db tok).2 = .ok l ∧
      (∀ t ∈ db.tours, tourToOut t ∈ l) ∧
      (∀ x ∈ l, ∃ t, t ∈ db.tours ∧ tourToOut t = x) ∧
      (∀ l2, (list_tours cfg db).2 = .ok l2 →
        ∀ x ∈ l2, ∃ t, t ∈ db.tours ∧ tourToOut t = x) ∧
      (∀ (t : Tour) (b : Bool), tourToOut { t with is_active := b } = tourToOut t) := by
  have hra : require_admin cfg tok = .ok () := by
    simp [require_admin, hadmin, htok]
  refine ⟨(sortById db.tours).map tourToOut,
    by simp [admin_list_tours, hra, hdb], ?_, ?_, ?_, fun t b => rfl⟩
  · intro t ht
    exact List.mem_map_of_mem tourToOut (by simpa [sortById, List.mem_insertionSort] using ht)
  · intro x hx
    obtain ⟨t, ht, rfl⟩ := List.mem_map.mp hx
    exact ⟨t, by simpa [sortById, List.mem_insertionSort] using ht, rfl⟩
  · intro l2 hl2 x hx
    have : l2 = (sortById (db.tours.filter (fun t => t.is_active))).map tourToOut := by
      simp [list_tours, hdb] at hl2
      exact hl2.symm
    subst this
    obtain ⟨t, ht, rfl⟩ := List.mem_map.mp hx
    have := (by simpa [sortById, List.mem_insertionSort] using ht : t ∈ db.tours.filter (fun t => t.is_active))
    exact ⟨t, (List.mem_filter.mp this).1, rfl⟩

/-- Witness for C10 at the fixture state: the inactive "Old Pier" tour is
in the admin listing, projected without its flag. -/
theorem C10_witness :
    (truthy cfgFull.admin_token = true ∧ some "s3cret" = cfgFull.admin_token ∧
     truthy cfgFull.database_url = true) ∧
    ∃ l, (admin_list_tours cfgFull dbSample (some "s3cret")).2 = .ok l ∧
      (∀ t ∈ dbSample.tours, tourToOut t ∈ l) ∧
      (∀ x ∈ l, ∃ t, t ∈ dbSample.tours ∧ tourToOut t = x) ∧
      (∀ l2, (list_tours cfgFull dbSample).2 = .ok l2 →
        ∀ x ∈ l2, ∃ t, t ∈ dbSample.tours ∧ tourToOut t = x) ∧
      (∀ (t : Tour) (b : Bool), tourToOut { t with is_active := b } = tourToOut t) :=
  ⟨⟨rfl, rfl, rfl⟩,
   C10_admin_lists_all_without_is_active cfgFull dbSample (some "s3cret") rfl rfl rfl⟩

/-- A trace accepted by the `notifyOnlyAfterCommit` scan has, before every
notification event, some earlier `commit` event. -/
theorem notifyOnlyAfterCommit_spec (tr : List Event)
    (h : notifyOnlyAfterCommit tr = true) :
    ∀ i (hi : i < tr.length), (tr.get ⟨i, hi⟩).isNotify = true →
      ∃ j, ∃ hj : j < tr.length, j < i ∧ tr.get ⟨j, hj⟩ = Event.commit := by
  induction tr with
  | nil => intro i hi; exact absurd hi (by simp)
  | cons e rest ih =>
    intro i hi hn
    simp only [notifyOnlyAfterCommit, Bool.or_eq_true, Bool.and_eq_true,
      beq_iff_eq, Bool.not_eq_true'] at h
    rcases h with hc | ⟨hnot, hrest⟩
    · subst hc
      match i, hi, hn with
      | 0, hi, hn => simp [Event.isNotify] at hn
      | i' + 1, hi, hn =>
        exact ⟨0, by simp, Nat.succ_pos i', rfl⟩
    · match i, hi, hn with
      | 0, hi, hn => rw [List.get] at hn; rw [hn] at hnot; cases hnot
      | i' + 1, hi, hn =>
        obtain ⟨j, hj, hji, hcm⟩ := ih hrest i' (Nat.lt_of_succ_lt_succ hi) hn
        exact ⟨j + 1, Nat.succ_lt_succ hj, Nat.succ_lt_succ hji, hcm⟩

/-- C6: in every execution of `create_booking` — any configuration, state,
payload, persistence fault and transport fault — every outbound
notification event in the trace is strictly preceded by a `commit` event:
the notification attempt begins only after the transaction has committed
successfully, and never occurs in an execution without a commit. -/
theorem C6_notify_only_after_commit (cfg : Config) (db : DB) (p : BookingCreate)
    (fault : DbFault) (sendFault : Option String) :
    ∀ i (hi : i < (create_booking cfg db p fault sendFault).2.2.length),
      ((create_booking cfg db p fault sendFault).2.2.get ⟨i, hi⟩).isNotify = true →
      ∃ j, ∃ hj : j < (create_booking cfg db p fault sendFault).2.2.length,
        j < i ∧ (create_booking cfg db p fault sendFault).2.2.get ⟨j, hj⟩ = Event.commit := by
  apply notifyOnlyAfterCommit_spec
  cases hdb : truthy cfg.database_url with
  | false => simp [create_booking, hdb, notifyOnlyAfterCommit]
  | true =>
    cases fault with
    | lookupFault e =>
      simp [create_booking, hdb, notifyOnlyAfterCommit, Event.isNotify]
    | insertFault e =>
      cases hfind : findActiveTour db p.tour_id with
      | none => simp [create_booking, hdb, hfind, notifyOnlyAfterCommit, Event.isNotify]
      | some t => simp [create_booking, hdb, hfind, notifyOnlyAfterCommit, Event.isNotify]
    | noFault =>
      cases hfind : findActiveTour db p.tour_id with
      | none => simp [create_booking, hdb, hfind, notifyOnlyAfterCommit, Event.isNotify]
      | some t =>
        rcases hng : notify_guides cfg (guides_text t.title db.next_booking_id p)
            sendFault with ⟨res, ev⟩
        cases res with
        | error e =>
          simp [create_booking, hdb, hfind, hng, notifyOnlyAfterCommit, Event.isNotify]
        | ok u =>
          simp [create_booking, hdb, hfind, hng, notifyOnlyAfterCommit, Event.isNotify]

/-- Witness for C6: the fixture booking's trace has its notification post
at index 4, and the theorem produces the earlier commit. -/
theorem C6_witness :
    ∃ _hi : 4 < (create_booking cfgFull dbSample pSample .noFault none).2.2.length,
      ∃ j, ∃ hj : j < (create_booking cfgFull dbSample pSample .noFault none).2.2.length,
        j < 4 ∧
        (create_booking cfgFull dbSample pSample .noFault none).2.2.get ⟨j, hj⟩ =
          Event.commit := by
  have hi : 4 < (create_booking cfgFull dbSample pSample .noFault none).2.2.length := by
    decide
  have hn : (((create_booking cfgFull dbSample pSample .noFault none).2.2.get
      ⟨4, hi⟩)).isNotify = true := of_decide_eq_true rfl
  exact ⟨hi, C6_notify_only_after_commit cfgFull dbSample pSample .noFault none 4 hi hn⟩

/-- Every notification post produced by `notify_guides` carries exactly
the text it was given. -/
theorem notify_guides_text_exact (cfg : Config) (msg : String)
    (sendFault : Option String) :
    ∀ c t, Event.notifyAttempt c t ∈ (notify_guides cfg msg sendFault).2 → t = msg := by
  intro c t hmem
  unfold notify_guides send_telegram_message at hmem
  split at hmem
  · simp at hmem
  · split at hmem
    · simp at hmem
    · split at hmem
      · simp at hmem
      · cases sendFault with
        | none => simp at hmem; exact hmem.2
        | some e => simp at hmem; exact hmem.2

/-- C7: every outbound notification text submitted for a committed
booking is the formatted summary: it is `guides_text` applied to the
looked-up tour's title, the fresh booking id and the payload, and hence
contains the tour title, the date/time, the people count, the client name
followed by its username annotation (present exactly when a non-empty
username was supplied), the phone, and the comment — with the placeholder
"-" when the comment is absent or empty. -/
theorem C7_notification_text_is_summary (cfg : Config) (db : DB)
    (p : BookingCreate) (fault : DbFault) (sendFault : Option String)
    (c : Int) (txt : String) (tour : Tour)
    (htour : findActiveTour db p.tour_id = some tour)
    (hmem : Event.notifyAttempt c txt ∈ (create_booking cfg db p fault sendFault).2.2) :
    txt = guides_text tour.title db.next_booking_id p ∧
    (∃ a b, txt = a ++ tour.title ++ b) ∧
    (∃ a b, txt = a ++ p.date_time ++ b) ∧
    (∃ a b, txt = a ++ toString p.people_count ++ b) ∧
    (∃ a b, txt = a ++ (p.client_name ++ username_part p.telegram_username) ++ b) ∧
    (∃ a b, txt = a ++ p.client_phone ++ b) ∧
    (∃ a b, txt = a ++ comment_or_dash p.comment ++ b) ∧
    (p.comment = none → comment_or_dash p.comment = "-") ∧
    (∀ u, p.telegram_username = some u → ¬u.isEmpty = true →
      username_part p.telegram_username = " (@" ++ u ++ ")") := by
  have htxt : txt = guides_text tour.title db.next_booking_id p := by
    cases hdb : truthy cfg.database_url with
    | false => simp [create_booking, hdb] at hmem
    | true =>
      cases fault with
      | lookupFault e => simp [create_booking, hdb] at hmem
      | insertFault e =>
        cases hfind : findActiveTour db p.tour_id with
        | none => simp [create_booking, hdb, hfind] at hmem
        | some t => simp [create_booking, hdb, hfind] at hmem
      | noFault =>
        cases hfind : findActiveTour db p.tour_id with
        | none => simp [create_booking, hdb, hfind] at hmem
        | some t =>
          have ht : t = tour := by
            rw [hfind] at htour; exact Option.some.inj htour
          subst ht
          rcases hng : notify_guides cfg (guides_text t.title db.next_booking_id p)
              sendFault with ⟨res, ev⟩
          have hev : Event.notifyAttempt c txt ∈ ev := by
            cases res with
            | error e =>
              simpa [create_booking, hdb, hfind, hng] using hmem
            | ok u =>
              simpa [create_booking, hdb, hfind, hng] using hmem
          exact notify_guides_text_exact cfg (guides_text t.title db.next_booking_id p)
            sendFault c txt (by rw [hng]; exact hev)
  subst htxt
  refine ⟨rfl, ?_, ?_, ?_, ?_, ?_, ?_, ?_, ?_⟩
  · exact ⟨"🆕 Новая заявка #" ++ toString db.next_booking_id ++ "\n" ++ "Тур: ",
      "\n" ++ "Дата/время: " ++ p.date_time ++ "\n" ++ "Кол-во человек: " ++
      toString p.people_count ++ "\n" ++ "Клиент: " ++ p.client_name ++
      username_part p.telegram_username ++ "\n" ++ "Телефон: " ++ p.client_phone ++
      "\n" ++ "Комментарий: " ++ comment_or_dash p.comment,
      by simp [guides_text, String.append_assoc]⟩
  · exact ⟨"🆕 Новая заявка #" ++ toString db.next_booking_id ++ "\n" ++ "Тур: " ++
      tour.title ++ "\n" ++ "Дата/время: ",
      "\n" ++ "Кол-во человек: " ++ toString p.people_count ++ "\n" ++ "Клиент: " ++
      p.client_name ++ username_part p.telegram_username ++ "\n" ++ "Телефон: " ++
      p.client_phone ++ "\n" ++ "Комментарий: " ++ comment_or_dash p.comment,
      by simp [guides_text, String.append_assoc]⟩
  · exact ⟨"🆕 Новая заявка #" ++ toString db.next_booking_id ++ "\n" ++ "Тур: " ++
      tour.title ++ "\n" ++ "Дата/время: " ++ p.date_time ++ "\n" ++ "Кол-во человек: ",
      "\n" ++ "Клиент: " ++ p.client_name ++ username_part p.telegram_username ++
      "\n" ++ "Телефон: " ++ p.client_phone ++ "\n" ++ "Комментарий: " ++
      comment_or_dash p.comment,
      by simp [guides_text, String.append_assoc]⟩
  · exact ⟨"🆕 Новая заявка #" ++ toString db.next_booking_id ++ "\n" ++ "Тур: " ++
      tour.title ++ "\n" ++ "Дата/время: " ++ p.date_time ++ "\n" ++ "Кол-во человек: " ++
      toString p.people_count ++ "\n" ++ "Клиент: ",
      "\n" ++ "Телефон: " ++ p.client_phone ++ "\n" ++ "Комментарий: " ++
      comment_or_dash p.comment,
      by simp [guides_text, String.append_assoc]⟩
  · exact ⟨"🆕 Новая заявка #" ++ toString db.next_booking_id ++ "\n" ++ "Тур: " ++
      tour.title ++ "\n" ++ "Дата/время: " ++ p.date_time ++ "\n" ++ "Кол-во человек: " ++
      toString p.people_count ++ "\n" ++ "Клиент: " ++ p.client_name ++
      username_part p.telegram_username ++ "\n" ++ "Телефон: ",
      "\n" ++ "Комментарий: " ++ comment_or_dash p.comment,
      by simp [guides_text, String.append_assoc]⟩
  · exact ⟨"🆕 Новая заявка #" ++ toString db.next_booking_id ++ "\n" ++ "Тур: " ++
      tour.title ++ "\n" ++ "Дата/время: " ++ p.date_time ++ "\n" ++ "Кол-во человек: " ++
      toString p.people_count ++ "\n" ++ "Клиент: " ++ p.client_name ++
      username_part p.telegram_username ++ "\n" ++ "Телефон: " ++ p.client_phone ++
      "\n" ++ "Комментарий: ", "",
      by simp [guides_text, String.append_assoc]⟩
  · intro hc; simp [comment_or_dash, hc]
  · intro u hu hne; simp [username_part, hu, hne]

/-- Witness for C7: the fixture booking's posted text, checked against the
looked-up tour. -/
theorem C7_witness :
    (findActiveTour dbSample pSample.tour_id = some tourWalk ∧
     Event.notifyAttempt 42 (guides_text tourWalk.title dbSample.next_booking_id pSample) ∈
       (create_booking cfgFull dbSample pSample .noFault none).2.2) ∧
    (∃ a b, guides_text tourWalk.title dbSample.next_booking_id pSample =
      a ++ tourWalk.title ++ b) ∧
    comment_or_dash pSample.comment = "-" := by
  have h1 : findActiveTour dbSample pSample.tour_id = some tourWalk := by decide
  have h2 : Event.notifyAttempt 42
      (guides_text tourWalk.title dbSample.next_booking_id pSample) ∈
      (create_booking cfgFull dbSample pSample .noFault none).2.2 := by decide
  have main := C7_notification_text_is_summary cfgFull dbSample pSample .noFault none
    42 (guides_text tourWalk.title dbSample.next_booking_id pSample) tourWalk h1 h2
  exact ⟨⟨h1, h2⟩, main.2.1, main.2.2.2.2.2.2.2.1 rfl⟩

/-- C4 counterexample: a transport error in the outbound Telegram post is
NOT absorbed.  At the fixture input the booking commits (exactly one
durable row, id 1), yet with a connect error injected into the post the
handler's outcome is the uncaught exception — not the success response —
because neither `send_telegram_message` nor `notify_guides` nor
`create_booking` guards the `client.post` call; and
`send_telegram_message` itself fails observably to its caller. -/
theorem C4_counterexample :
    (create_booking cfgFull dbSample pSample .noFault (some "connect error")).1.bookings.length = 1 ∧
    (create_booking cfgFull dbSample pSample .noFault (some "connect error")).2.1 =
      .exn "connect error" ∧
    ((create_booking cfgFull dbSample pSample .noFault (some "connect error")).2.1).isOk = false ∧
    (send_telegram_message cfgFull 42 "hi" (some "connect error")).1 =
      .error "connect error" := by
  refine ⟨by decide, by decide, by decide, rfl⟩

/-- The notification step cannot fail when it performs no transport call
(bot token or chat id unconfigured, or malformed chat id) or when the
transport call itself succeeds. -/
theorem notify_guides_ok_without_transport_fault (cfg : Config) (msg : String)
    (sendFault : Option String)
    (hsafe : truthy cfg.bot_token = false ∨ truthy cfg.guides_chat_id = false ∨
      pyInt? (cfg.guides_chat_id.getD "") = none ∨ sendFault = none) :
    (notify_guides cfg msg sendFault).1 = .ok () := by
  by_cases hb : truthy cfg.bot_token
  case neg => simp [notify_guides, hb]
  by_cases hg : truthy cfg.guides_chat_id
  case neg => simp [notify_guides, hg]
  cases hp : pyInt? (cfg.guides_chat_id.getD "") with
  | none => simp [notify_guides, hb, hg, hp]
  | some cid =>
    have hsf : sendFault = none := by
      rcases hsafe with h | h | h | h
      · rw [hb] at h; cases h
      · rw [hg] at h; cases h
      · rw [hp] at h; cases h
      · exact h
    subst hsf
    simp [notify_guides, send_telegram_message, hb, hg, hp]

/-- C4 (amended): for every booking that reaches a successful commit, a
notification step that performs no outbound transport call — bot token or
chat id missing/falsy, or a malformed chat id (the `int` conversion
fails) — or whose transport call succeeds, never changes the caller's
result: the caller receives the success response carrying the committed
identifier and the row is durable.  (A transport error in an actually
performed post, by contrast, escapes the handler: see the
counterexample.) -/
theorem C4_amended_nontransport_failures_invisible (cfg : Config) (db : DB)
    (p : BookingCreate) (sendFault : Option String) (tour : Tour)
    (hdb : truthy cfg.database_url = true)
    (htour : findActiveTour db p.tour_id = some tour)
    (hsafe : truthy cfg.bot_token = false ∨ truthy cfg.guides_chat_id = false ∨
      pyInt? (cfg.guides_chat_id.getD "") = none ∨ sendFault = none) :
    (create_booking cfg db p .noFault sendFault).2.1 = .ok db.next_booking_id ∧
    (create_booking cfg db p .noFault sendFault).1.bookings =
      db.bookings ++ [insertedBooking db p] := by
  have hok := notify_guides_ok_without_transport_fault cfg
    (guides_text tour.title db.next_booking_id p) sendFault hsafe
  rcases hng : notify_guides cfg (guides_text tour.title db.next_booking_id p)
      sendFault with ⟨res, ev⟩
  rw [hng] at hok
  simp only at hok
  subst hok
  constructor
  · simp [create_booking, hdb, htour, hng]
  · simp [create_booking, hdb, htour, hng]

/-- Witness for C4 (amended), exercising both failure kinds the amended
claim keeps: with `TG_BOT_TOKEN` unset (missing configuration), and with
`GUIDES_CHAT_ID = "12abc"` (malformed recipient id, `int` raises), an
injected transport fault leaves the success response intact. -/
theorem C4_witness :
    (truthy cfgNoBot.database_url = true ∧
     findActiveTour dbSample pSample.tour_id = some tourWalk ∧
     truthy cfgNoBot.bot_token = false) ∧
    ((create_booking cfgNoBot dbSample pSample .noFault (some "connect error")).2.1 =
       .ok dbSample.next_booking_id ∧
     (create_booking cfgNoBot dbSample pSample .noFault (some "connect error")).1.bookings =
       dbSample.bookings ++ [insertedBooking dbSample pSample]) ∧
    (pyInt? (cfgBadChat.guides_chat_id.getD "") = none ∧
     (create_booking cfgBadChat dbSample pSample .noFault (some "connect error")).2.1 =
       .ok dbSample.next_booking_id) :=
  ⟨⟨rfl, by decide, rfl⟩,
   C4_amended_nontransport_failures_invisible cfgNoBot dbSample pSample
     (some "connect error") tourWalk rfl (by decide) (Or.inl rfl),
   by decide,
   (C4_amended_nontransport_failures_invisible cfgBadChat dbSample pSample
     (some "connect error") tourWalk rfl (by decide)
     (Or.inr (Or.inr (Or.inl (by decide))))).1⟩

end Adler
